import Mathlib

/-!
Verification of the `yt_downloader` batch-download library
(`yt_downloader.py` and its driver `source.py`).

The Python code is shallowly embedded as pure Lean functions.  External
collaborators (the `yt_dlp` provider, the filesystem, the progress-log
file) are abstracted into an explicit environment `Env`; every side
effect the code performs (directory creation, provider invocation,
directory listing, existence check, progress-log append) is recorded in
an explicit effect trace, so that "performs no I/O" and "never consults
the directory listing" become statements about the trace.  Fallible
Python code is embedded with `Except String`, the error string being the
exception message.
-/

namespace YtDownloader

/-- One yt-dlp post-processor entry, as placed in `ydl_opts["postprocessors"]`
by `_prepare_download_options` (a Python dict; absent keys are `none`). -/
structure PostProcessor where
  key : String
  preferredcodec : Option String := none
  preferredquality : Option String := none
  preferedformat : Option String := none
deriving DecidableEq, Repr

/-- The `ydl_opts` dictionary built by `_prepare_download_options`.
Fields mirror the Python dict keys; `extract_audio` and `keepvideo` are
only set in audio mode, hence `Option`. -/
structure Config where
  retries : Nat
  fragment_retries : Nat
  socket_timeout : Nat
  ignoreerrors : Bool
  continuedl : Bool
  format : String
  outtmpl : String
  postprocessors : List PostProcessor
  extract_audio : Option Bool := none
  keepvideo : Option Bool := none
  writesubtitles : Bool
  writeautomaticsub : Bool
deriving DecidableEq, Repr

/-- The info dictionary returned by `ydl.extract_info(url, download=True)`,
restricted to the keys `yt_downloader` reads.  `requested_downloads`
models the list of download dicts, each entry carrying its `"filepath"`
value when that key is present; an absent or `None` `requested_downloads`
key is modelled as `[]` (both are falsy in Python, and the truthiness
test is all the code does with it). -/
structure InfoDict where
  requested_downloads : List (Option String) := []
  filename : Option String := none
deriving DecidableEq, Repr

/-- A side effect performed by the embedded code, in program order. -/
inductive Effect where
  | mkdir (dir : String)
  | fetchCall (url : String) (opts : Config)
  | listDir (dir : String)
  | checkExists (path : String)
  | logAppend (url : String)
deriving DecidableEq, Repr

/-- The external world: the `yt_dlp` provider, the filesystem, and the
outcome of appending one line to the progress-log file `downloads.txt`.
`fetch url opts` is `Except.error msg` when the provider raises, `listing
dir` is `target_dir.glob("*")`, `mtime` is `st_mtime`, and
`logWrite url` is the outcome of the open/write/close of the progress
log for that url. -/
structure Env where
  fetch : String → Config → Except String InfoDict
  listing : String → List String
  fileExists : String → Bool
  mtime : String → Int
  logWrite : String → Except String Unit

/-- Embedding of `_prepare_download_options(target_dir, only_audio,
quality, title)`.  `Path` concatenation `target_dir / name` is embedded
as string concatenation with `"/"`.  The second argument is the
`only_audio` flag of the source. -/
def prepare_download_options (target_dir : String) (audio_flag : Bool)
    (quality : String) (title : Option String) : Config :=
  if audio_flag then
    { retries := 10
      fragment_retries := 10
      socket_timeout := 30
      ignoreerrors := true
      continuedl := true
      format := if quality = "highest" then "bestaudio" else "worstaudio"
      outtmpl :=
        match title with
        | some t => target_dir ++ "/" ++ t ++ ".%(ext)s"
        | none => target_dir ++ "/%(title)s.%(ext)s"
      postprocessors :=
        [{ key := "FFmpegExtractAudio"
           preferredcodec := some "mp3"
           preferredquality := some "192" }]
      extract_audio := some true
      keepvideo := some false
      writesubtitles := false
      writeautomaticsub := false }
  else
    { retries := 10
      fragment_retries := 10
      socket_timeout := 30
      ignoreerrors := true
      continuedl := true
      format :=
        if quality = "highest" then
          "bestvideo[ext=mp4]+bestaudio[ext=m4a]/best[ext=mp4]"
        else
          "worstvideo[ext=mp4]+worstaudio[ext=m4a]/worst[ext=mp4]"
      outtmpl :=
        match title with
        | some t => target_dir ++ "/" ++ t ++ ".mp4"
        | none => target_dir ++ "/%(title)s.mp4"
      postprocessors := [{ key := "FFmpegVideoConvertor", preferedformat := some "mp4" }]
      writesubtitles := false
      writeautomaticsub := false }

/-- Stable insertion into a list sorted by strictly decreasing
`m`-value: `x` goes after every element whose `m`-value is strictly
greater, before everything else.  Building the sorted list by inserting
the original elements from right to left reproduces the head produced by
Python's stable `list.sort(key=..., reverse=True)`. -/
def insertByMtime (m : String → Int) (x : String) : List String → List String
  | [] => [x]
  | y :: ys => if m y > m x then y :: insertByMtime m x ys else x :: y :: ys

/-- Embedding of `downloaded_files.sort(key=lambda x: x.stat().st_mtime,
reverse=True)`: sort by decreasing modification time, stably. -/
def sortByMtimeDesc (m : String → Int) : List String → List String
  | [] => []
  | x :: xs => insertByMtime m x (sortByMtimeDesc m xs)

/-- Embedding of `yt_downloader(url, target_dir, only_audio, quality,
title)`.  Returns the result (`Except.error` = the raised exception's
message) paired with the trace of side effects performed.  The third
argument is the `only_audio` flag of the source. -/
def yt_downloader (env : Env) (url : String) (target_dir : String)
    (audio_flag : Bool) (quality : String) (title : Option String) :
    Except String String × List Effect :=
  -- `if not url or not url.strip():` — the url is rejected exactly when it
  -- is empty or consists only of whitespace, i.e. when every one of its
  -- characters is whitespace.
  if url.toList.all Char.isWhitespace then
    (Except.error "URL cannot be empty", [])
  else
    let ydl_opts := prepare_download_options target_dir audio_flag quality title
    match env.fetch url ydl_opts with
    | Except.error e =>
        (Except.error ("Error downloading " ++ url ++ ": " ++ e),
         [Effect.mkdir target_dir, Effect.fetchCall url ydl_opts])
    | Except.ok info_dict =>
        -- Method 1: filepaths from requested_downloads (empty when the key
        -- is falsy or no entry carries a filepath).
        let files1 := info_dict.requested_downloads.filterMap id
        -- Method 2: list files in the target directory.
        let step2 : List String × List Effect :=
          if files1.isEmpty then
            (env.listing target_dir, [Effect.listDir target_dir])
          else (files1, [])
        -- Method 3: filename from the info dict, if it exists on disk.
        let step3 : List String × List Effect :=
          if step2.1.isEmpty then
            match info_dict.filename with
            | some fn =>
                let p := target_dir ++ "/" ++ fn
                ((if env.fileExists p then [p] else []), [Effect.checkExists p])
            | none => ([], [])
          else (step2.1, [])
        let downloaded_files := step3.1
        let trace := [Effect.mkdir target_dir, Effect.fetchCall url ydl_opts]
          ++ step2.2 ++ step3.2
        if downloaded_files.isEmpty then
          (Except.error ("Error downloading " ++ url ++ ": No files were downloaded"),
           trace)
        else
          let finalFiles :=
            if downloaded_files.length > 1 then
              sortByMtimeDesc env.mtime downloaded_files
            else downloaded_files
          (Except.ok (finalFiles.headD ""), trace)

/-- A task dictionary as consumed by `run_download_tasks`: `"url"` is
required, every other key optional (`none` = key absent). The field
`audio_flag` embeds the `only_audio` key. -/
structure Task where
  url : String
  target_dir : Option String := none
  audio_flag : Option Bool := none
  quality : Option String := none
  title : Option String := none
deriving DecidableEq, Repr

/-- A per-task result dictionary: `{"url": ..., "path": ...}` on success,
`{"url": ..., "error": ...}` on failure. -/
inductive Result where
  | success (url : String) (path : String)
  | failure (url : String) (errorMessage : String)
deriving DecidableEq, Repr

/-- The `"url"` entry of a result dictionary. -/
def Result.url : Result → String
  | Result.success u _ => u
  | Result.failure u _ => u

/-- Embedding of the inner `download_task(task)` closure of
`run_download_tasks`: runs `yt_downloader` with the task's values (note
the source defaults: `target_dir` → `"./downloads"`, `only_audio` →
`True`, `quality` → `"highest"`), then appends the url to
`downloads.txt`; any exception is captured into a failure result. -/
def download_task (env : Env) (task : Task) : Result × List Effect :=
  match yt_downloader env task.url (task.target_dir.getD "./downloads")
      (task.audio_flag.getD true) (task.quality.getD "highest") task.title with
  | (Except.ok path, eff) =>
      match env.logWrite task.url with
      | Except.ok _ =>
          (Result.success task.url path, eff ++ [Effect.logAppend task.url])
      | Except.error e => (Result.failure task.url e, eff)
  | (Except.error e, eff) => (Result.failure task.url e, eff)

/-- Embedding of `run_download_tasks(download_tasks, max_workers)`.
`ThreadPoolExecutor(max_workers=n)` raises
`ValueError("max_workers must be greater than 0")` when `n ≤ 0`, so after
`max_workers = min(max_workers, len(download_tasks))` the call raises
whenever that minimum is `0`.  Otherwise `executor.map` applies
`download_task` to every task and returns the results in input order. -/
def run_download_tasks (env : Env) (download_tasks : List Task)
    (max_workers : Nat := 10) : Except String (List Result) × List Effect :=
  let mw := min max_workers download_tasks.length
  if mw = 0 then
    (Except.error "max_workers must be greater than 0", [])
  else
    let outs := download_tasks.map (download_task env)
    (Except.ok (outs.map Prod.fst), (outs.map Prod.snd).flatten)

/-! ## Task construction from configuration files

`get_download_tasks_from_json` / `get_download_tasks_from_yaml` read a
file and parse it with `json.load` / `yaml.safe_load`; both parsers are
external collaborators, so the embedding is parameterised by the outcome
of the open-and-parse step (`Except.error` = the exception it raised).
The parsed document is an arbitrary Python value, embedded as `JValue`.
-/

/-- A parsed JSON/YAML document (a Python value). Objects are embedded
as association lists without duplicate keys. -/
inductive JValue where
  | dict (entries : List (String × JValue))
  | list (elems : List JValue)
  | str (s : String)
  | num (n : Int)
  | bool (b : Bool)
  | null

/-- Python's type name for a `JValue`, as it appears in exception
messages. -/
def jTypeName : JValue → String
  | JValue.dict _ => "dict"
  | JValue.list _ => "list"
  | JValue.str _ => "str"
  | JValue.num _ => "int"
  | JValue.bool _ => "bool"
  | JValue.null => "NoneType"

/-- `d.get(k)` on a Python dict embedded as an association list. -/
def pyGet (entries : List (String × JValue)) (k : String) : Option JValue :=
  (entries.find? fun kv => kv.fst = k).map Prod.snd

/-- Iterating a Python value with `for url in urls`: lists yield their
elements, strings their characters, dicts their keys; other values raise
`TypeError`. -/
def pyIter : JValue → Except String (List JValue)
  | JValue.list vs => Except.ok vs
  | JValue.str s => Except.ok (s.toList.map fun c => JValue.str (String.mk [c]))
  | JValue.dict es => Except.ok (es.map fun kv => JValue.str kv.fst)
  | v => Except.error ("TypeError: " ++ jTypeName v ++ " object is not iterable")

/-- Embedding of `_unified_download_tasks(download_config)`.  The result
is the list of task dictionaries `{**defaults, "url": url}`; an
`Except.error` is an exception escaping the function (`.get` on a
non-dict document, iterating a non-iterable `urls` value, or splatting a
non-mapping `defaults` value). -/
def unified_download_tasks (download_config : JValue) :
    Except String (List (List (String × JValue))) :=
  match download_config with
  | JValue.dict entries =>
      let defaults := (pyGet entries "defaults").getD (JValue.dict
        [("quality", JValue.str "lowest"),
         ("only_audio", JValue.bool false),
         ("target_dir", JValue.str "./downloads")])
      let urls := (pyGet entries "urls").getD (JValue.list [])
      match pyIter urls with
      | Except.error e => Except.error e
      | Except.ok us =>
          us.mapM fun u =>
            match defaults with
            | JValue.dict d =>
                Except.ok ((d.filter fun kv => kv.fst ≠ "url") ++ [("url", u)])
            | v =>
                Except.error ("TypeError: " ++ jTypeName v ++ " object is not a mapping")
  | v =>
      Except.error ("AttributeError: " ++ jTypeName v ++ " object has no attribute get")

/-- Embedding of `get_download_tasks_from_json(config_file)`.
`loadResult` is the outcome of `open` + `json.load`; when it raised, the
function prints the error and returns `[]`. -/
def get_download_tasks_from_json (loadResult : Except String JValue) :
    Except String (List (List (String × JValue))) :=
  match loadResult with
  | Except.error _ => Except.ok []
  | Except.ok config => unified_download_tasks config

/-- Embedding of `get_download_tasks_from_yaml(config_file)`.
`loadResult` is the outcome of `open` + `yaml.safe_load`; when it raised,
the function prints the error and returns `[]`. -/
def get_download_tasks_from_yaml (loadResult : Except String JValue) :
    Except String (List (List (String × JValue))) :=
  match loadResult with
  | Except.error _ => Except.ok []
  | Except.ok config => unified_download_tasks config

/-- The progress-log lines appended during a trace, in order. -/
def logAppends (effs : List Effect) : List String :=
  effs.filterMap fun e =>
    match e with
    | Effect.logAppend u => some u
    | _ => none

/-! ## Concrete environments and tasks used to evaluate the embedding -/

/-- An environment whose provider always raises a network error. -/
def envFail : Env where
  fetch := fun _ _ => Except.error "network error"
  listing := fun _ => []
  fileExists := fun _ => false
  mtime := fun _ => 0
  logWrite := fun _ => Except.ok ()

/-- An environment whose provider reports two produced files, the second
more recently modified; progress-log appends succeed. -/
def envOk : Env where
  fetch := fun _ _ =>
    Except.ok { requested_downloads := [some "/d/a.mp3", some "/d/b.mp3"], filename := none }
  listing := fun _ => []
  fileExists := fun _ => false
  mtime := fun p => if p = "/d/b.mp3" then 2 else 0
  logWrite := fun _ => Except.ok ()

/-- An environment whose provider succeeds but reports no produced files,
with an empty target directory: no output path can be resolved. -/
def envNoFiles : Env where
  fetch := fun _ _ => Except.ok { requested_downloads := [], filename := none }
  listing := fun _ => []
  fileExists := fun _ => false
  mtime := fun _ => 0
  logWrite := fun _ => Except.ok ()

/-- Like `envOk`, but appending to the progress log fails. -/
def envLogFail : Env :=
  { envOk with logWrite := fun _ => Except.error "No space left on device" }

/-- A task carrying only a url. -/
def taskU : Task := { url := "u" }

/-- A well-formed task. -/
def taskA : Task := { url := "https://example.com/v1" }

/-- A task whose url is whitespace-only. -/
def taskWs : Task := { url := "   " }

/-! ## Helper lemmas about the mtime sort -/

theorem mem_insertByMtime (m : String → Int) (x y : String) :
    ∀ l : List String, y ∈ insertByMtime m x l ↔ y = x ∨ y ∈ l := by
  intro l
  induction l with
  | nil => simp [insertByMtime]
  | cons a as ih =>
      simp only [insertByMtime]
      split
      · simp only [List.mem_cons, ih]
        tauto
      · simp only [List.mem_cons]

theorem insertByMtime_ne_nil (m : String → Int) (x : String) (l : List String) :
    insertByMtime m x l ≠ [] := by
  cases l with
  | nil => simp [insertByMtime]
  | cons a as =>
      simp only [insertByMtime]
      split <;> simp

theorem mem_sortByMtimeDesc (m : String → Int) (y : String) :
    ∀ l : List String, y ∈ sortByMtimeDesc m l ↔ y ∈ l := by
  intro l
  induction l with
  | nil => simp [sortByMtimeDesc]
  | cons a as ih => simp [sortByMtimeDesc, mem_insertByMtime, ih]

theorem sortByMtimeDesc_ne_nil (m : String → Int) (l : List String) (h : l ≠ []) :
    sortByMtimeDesc m l ≠ [] := by
  cases l with
  | nil => exact absurd rfl h
  | cons a as =>
      simpa [sortByMtimeDesc] using insertByMtime_ne_nil m a (sortByMtimeDesc m as)

theorem le_headD_insertByMtime (m : String → Int) (d x : String) (s : List String)
    (hs : ∀ y ∈ s, m y ≤ m (s.headD d)) :
    ∀ y ∈ insertByMtime m x s, m y ≤ m ((insertByMtime m x s).headD d) := by
  cases s with
  | nil =>
      intro y hy
      simp only [insertByMtime, List.mem_singleton] at hy
      subst hy
      simp [insertByMtime]
  | cons b bs =>
      intro y hy
      rw [mem_insertByMtime] at hy
      simp only [insertByMtime]
      by_cases hcmp : m b > m x
      · rw [if_pos hcmp]
        simp only [List.headD_cons]
        rcases hy with rfl | hy
        · exact le_of_lt hcmp
        · simpa using hs y hy
      · rw [if_neg hcmp]
        simp only [List.headD_cons]
        rcases hy with rfl | hy
        · exact le_refl _
        · have h1 := hs y hy
          simp only [List.headD_cons] at h1
          omega

theorem le_headD_sortByMtimeDesc (m : String → Int) (d : String) :
    ∀ l : List String, ∀ y ∈ l, m y ≤ m ((sortByMtimeDesc m l).headD d) := by
  intro l
  induction l with
  | nil => intro y hy; cases hy
  | cons a as ih =>
      intro y hy
      simp only [sortByMtimeDesc]
      have hall : ∀ z ∈ sortByMtimeDesc m as, m z ≤ m ((sortByMtimeDesc m as).headD d) := by
        intro z hz
        exact ih z ((mem_sortByMtimeDesc m z as).mp hz)
      apply le_headD_insertByMtime m d a (sortByMtimeDesc m as) hall
      rw [mem_insertByMtime]
      rcases List.mem_cons.mp hy with rfl | hmem
      · exact Or.inl rfl
      · exact Or.inr ((mem_sortByMtimeDesc m y as).mpr hmem)

theorem headD_sortByMtimeDesc_mem (m : String → Int) (d : String) (l : List String)
    (h : l ≠ []) : (sortByMtimeDesc m l).headD d ∈ l := by
  have hne := sortByMtimeDesc_ne_nil m l h
  rcases hs : sortByMtimeDesc m l with _ | ⟨c, cs⟩
  · exact absurd hs hne
  · rw [List.headD_cons]
    have hc : c ∈ sortByMtimeDesc m l := by
      rw [hs]
      exact List.mem_cons_self c cs
    exact (mem_sortByMtimeDesc m c l).mp hc

/-- The file picked from a nonempty candidate list (sorted by decreasing
mtime when there is more than one) is a candidate of maximal mtime. -/
theorem resolved_headD_mem_max (m : String → Int) (files : List String) (h : files ≠ []) :
    ((if files.length > 1 then sortByMtimeDesc m files else files).headD "") ∈ files ∧
    ∀ x ∈ files,
      m x ≤ m ((if files.length > 1 then sortByMtimeDesc m files else files).headD "") := by
  by_cases hlen : files.length > 1
  · rw [if_pos hlen]
    exact ⟨headD_sortByMtimeDesc_mem m "" files h,
           fun x hx => le_headD_sortByMtimeDesc m "" files x hx⟩
  · rw [if_neg hlen]
    rcases files with _ | ⟨a, as⟩
    · exact absurd rfl h
    · rcases as with _ | ⟨b, bs⟩
      · refine ⟨by simp, ?_⟩
        intro x hx
        simp only [List.mem_singleton] at hx
        subst hx
        simp
      · exfalso
        simp only [List.length_cons, gt_iff_lt] at hlen
        omega

/-! ## Characterization lemmas for the embedded functions -/

theorem yt_downloader_invalid_url (env : Env) (url target_dir : String) (af : Bool)
    (quality : String) (title : Option String)
    (hurl : url.toList.all Char.isWhitespace = true) :
    yt_downloader env url target_dir af quality title =
      (Except.error "URL cannot be empty", []) := by
  unfold yt_downloader
  rw [hurl]
  rfl

theorem yt_downloader_fetch_error (env : Env) (url target_dir : String) (af : Bool)
    (quality : String) (title : Option String) (e : String)
    (hurl : url.toList.all Char.isWhitespace = false)
    (hfetch : env.fetch url (prepare_download_options target_dir af quality title) =
      Except.error e) :
    yt_downloader env url target_dir af quality title =
      (Except.error ("Error downloading " ++ url ++ ": " ++ e),
       [Effect.mkdir target_dir,
        Effect.fetchCall url (prepare_download_options target_dir af quality title)]) := by
  unfold yt_downloader
  rw [hurl]
  simp only [Bool.false_eq_true, if_false, hfetch]

theorem yt_downloader_produced_files (env : Env) (url target_dir : String) (af : Bool)
    (quality : String) (title : Option String) (info : InfoDict)
    (hurl : url.toList.all Char.isWhitespace = false)
    (hfetch : env.fetch url (prepare_download_options target_dir af quality title) =
      Except.ok info)
    (hne : info.requested_downloads.filterMap id ≠ []) :
    yt_downloader env url target_dir af quality title =
      (Except.ok ((if (info.requested_downloads.filterMap id).length > 1
          then sortByMtimeDesc env.mtime (info.requested_downloads.filterMap id)
          else info.requested_downloads.filterMap id).headD ""),
       [Effect.mkdir target_dir,
        Effect.fetchCall url (prepare_download_options target_dir af quality title)]) := by
  have hq : (info.requested_downloads.filterMap id).isEmpty = false := by
    simpa [List.isEmpty_iff] using hne
  unfold yt_downloader
  rw [hurl]
  simp only [Bool.false_eq_true, if_false, hfetch, hq, List.append_nil]

theorem yt_downloader_listing_fallback (env : Env) (url target_dir : String) (af : Bool)
    (quality : String) (title : Option String) (info : InfoDict)
    (hurl : url.toList.all Char.isWhitespace = false)
    (hfetch : env.fetch url (prepare_download_options target_dir af quality title) =
      Except.ok info)
    (hfm : info.requested_downloads.filterMap id = [])
    (hlist : env.listing target_dir ≠ []) :
    yt_downloader env url target_dir af quality title =
      (Except.ok ((if (env.listing target_dir).length > 1
          then sortByMtimeDesc env.mtime (env.listing target_dir)
          else env.listing target_dir).headD ""),
       [Effect.mkdir target_dir,
        Effect.fetchCall url (prepare_download_options target_dir af quality title),
        Effect.listDir target_dir]) := by
  have hq : (env.listing target_dir).isEmpty = false := by
    simpa [List.isEmpty_iff] using hlist
  unfold yt_downloader
  rw [hurl]
  simp only [Bool.false_eq_true, if_false, hfetch, hfm, List.isEmpty_nil, if_true, hq,
    List.append_nil]
  rfl

theorem yt_downloader_filename_fallback (env : Env) (url target_dir : String) (af : Bool)
    (quality : String) (title : Option String) (info : InfoDict) (fn : String)
    (hurl : url.toList.all Char.isWhitespace = false)
    (hfetch : env.fetch url (prepare_download_options target_dir af quality title) =
      Except.ok info)
    (hfm : info.requested_downloads.filterMap id = [])
    (hlist : env.listing target_dir = [])
    (hfn : info.filename = some fn)
    (hex : env.fileExists (target_dir ++ "/" ++ fn) = true) :
    yt_downloader env url target_dir af quality title =
      (Except.ok (target_dir ++ "/" ++ fn),
       [Effect.mkdir target_dir,
        Effect.fetchCall url (prepare_download_options target_dir af quality title),
        Effect.listDir target_dir,
        Effect.checkExists (target_dir ++ "/" ++ fn)]) := by
  unfold yt_downloader
  rw [hurl]
  simp only [Bool.false_eq_true, if_false, hfetch, hfm, hlist, hfn, hex,
    List.isEmpty_nil, if_true]
  rfl

theorem yt_downloader_no_file_none (env : Env) (url target_dir : String) (af : Bool)
    (quality : String) (title : Option String) (info : InfoDict)
    (hurl : url.toList.all Char.isWhitespace = false)
    (hfetch : env.fetch url (prepare_download_options target_dir af quality title) =
      Except.ok info)
    (hfm : info.requested_downloads.filterMap id = [])
    (hlist : env.listing target_dir = [])
    (hfn : info.filename = none) :
    yt_downloader env url target_dir af quality title =
      (Except.error ("Error downloading " ++ url ++ ": No files were downloaded"),
       [Effect.mkdir target_dir,
        Effect.fetchCall url (prepare_download_options target_dir af quality title),
        Effect.listDir target_dir]) := by
  unfold yt_downloader
  rw [hurl]
  simp only [Bool.false_eq_true, if_false, hfetch, hfm, hlist, hfn, List.isEmpty_nil, if_true]
  rfl

theorem yt_downloader_no_file_missing (env : Env) (url target_dir : String) (af : Bool)
    (quality : String) (title : Option String) (info : InfoDict) (fn : String)
    (hurl : url.toList.all Char.isWhitespace = false)
    (hfetch : env.fetch url (prepare_download_options target_dir af quality title) =
      Except.ok info)
    (hfm : info.requested_downloads.filterMap id = [])
    (hlist : env.listing target_dir = [])
    (hfn : info.filename = some fn)
    (hex : env.fileExists (target_dir ++ "/" ++ fn) = false) :
    yt_downloader env url target_dir af quality title =
      (Except.error ("Error downloading " ++ url ++ ": No files were downloaded"),
       [Effect.mkdir target_dir,
        Effect.fetchCall url (prepare_download_options target_dir af quality title),
        Effect.listDir target_dir,
        Effect.checkExists (target_dir ++ "/" ++ fn)]) := by
  unfold yt_downloader
  rw [hurl]
  simp only [Bool.false_eq_true, if_false, hfetch, hfm, hlist, hfn, hex,
    List.isEmpty_nil, if_true]
  rfl

theorem logAppends_yt_downloader (env : Env) (url target_dir : String) (af : Bool)
    (quality : String) (title : Option String) :
    logAppends (yt_downloader env url target_dir af quality title).snd = [] := by
  cases hurl : url.toList.all Char.isWhitespace with
  | true => rw [yt_downloader_invalid_url env url target_dir af quality title hurl]; rfl
  | false =>
      cases hfetch : env.fetch url (prepare_download_options target_dir af quality title) with
      | error e =>
          rw [yt_downloader_fetch_error env url target_dir af quality title e hurl hfetch]
          rfl
      | ok info =>
          by_cases hfm : info.requested_downloads.filterMap id = []
          · by_cases hlist : env.listing target_dir = []
            · cases hfn : info.filename with
              | none =>
                  rw [yt_downloader_no_file_none env url target_dir af quality title info
                    hurl hfetch hfm hlist hfn]
                  rfl
              | some fn =>
                  cases hex : env.fileExists (target_dir ++ "/" ++ fn) with
                  | true =>
                      rw [yt_downloader_filename_fallback env url target_dir af quality title
                        info fn hurl hfetch hfm hlist hfn hex]
                      rfl
                  | false =>
                      rw [yt_downloader_no_file_missing env url target_dir af quality title
                        info fn hurl hfetch hfm hlist hfn hex]
                      rfl
            · rw [yt_downloader_listing_fallback env url target_dir af quality title info
                hurl hfetch hfm hlist]
              rfl
          · rw [yt_downloader_produced_files env url target_dir af quality title info
              hurl hfetch hfm]
            rfl

theorem download_task_fst_url (env : Env) (task : Task) :
    ((download_task env task).fst).url = task.url := by
  unfold download_task
  rcases h : yt_downloader env task.url (task.target_dir.getD "./downloads")
      (task.audio_flag.getD true) (task.quality.getD "highest") task.title with ⟨res, eff⟩
  cases res with
  | ok p =>
      cases hl : env.logWrite task.url <;> simp [Result.url]
  | error e => simp [Result.url]

theorem run_download_tasks_eq_map (env : Env) (tasks : List Task) (k : Nat)
    (h : min k tasks.length ≠ 0) :
    (run_download_tasks env tasks k).fst =
      Except.ok (tasks.map fun t => (download_task env t).fst) := by
  unfold run_download_tasks
  simp only [h, if_false, List.map_map]
  rfl

/-! ## Claim theorems -/

/-- Claim C1: the claim states that `run(tasks, k)` returns normally with one
Result per input task for every task list (including the empty list) and every
`k ≥ 0`.  The code refutes it: after `max_workers = min(max_workers,
len(download_tasks))`, an empty task list (or `k = 0`) makes the effective
worker count `0`, and `ThreadPoolExecutor` then raises
`ValueError("max_workers must be greater than 0")` instead of returning a
result list.  This theorem evaluates the embedding at both failing inputs. -/
theorem run_download_tasks_raises_on_empty_tasks_or_zero_workers :
    (run_download_tasks envFail [] 10).fst =
      Except.error "max_workers must be greater than 0" ∧
    (run_download_tasks envFail [taskU] 0).fst =
      Except.error "max_workers must be greater than 0" :=
  ⟨rfl, rfl⟩

/-- Claim C6: the claim states that a task dict omitting the `only_audio` key
is dispatched with `only_audio = false` (the documented Task Model default).
The code refutes it: `download_task` reads `task.get("only_audio", True)`, so
the fetch is dispatched with the audio-mode options (audio extraction enabled),
which differ from the video-mode options the claim requires. -/
theorem download_task_omitted_audio_key_defaults_to_audio_mode :
    taskU.audio_flag = none ∧
    (download_task envFail taskU).snd =
      [Effect.mkdir "./downloads",
       Effect.fetchCall "u" (prepare_download_options "./downloads" true "highest" none)] ∧
    (prepare_download_options "./downloads" true "highest" none).extract_audio = some true ∧
    prepare_download_options "./downloads" true "highest" none ≠
      prepare_download_options "./downloads" false "highest" none :=
  ⟨rfl, rfl, rfl, by decide⟩

/-- Claim C7, counterexample: a config source that parses successfully to a
non-dict document (here, the well-formed JSON document `[]`) is a malformed
config source, yet `get_download_tasks_from_json` does not return an empty
task list — the `.get` call on the parsed document raises an
`AttributeError`, which propagates past the function boundary, because only
the open-and-parse step is guarded by `try`. -/
theorem get_download_tasks_from_json_raises_on_list_document :
    get_download_tasks_from_json (Except.ok (JValue.list [])) =
      Except.error "AttributeError: list object has no attribute get" :=
  rfl

/-- Claim C7, amended: for every config source whose open-or-parse step fails
(unreadable file or JSON/YAML syntax error), both task builders print the
error and return an empty task list, letting no exception propagate. -/
theorem get_download_tasks_open_or_parse_failure_yields_empty (e : String) :
    get_download_tasks_from_json (Except.error e) = Except.ok [] ∧
    get_download_tasks_from_yaml (Except.error e) = Except.ok [] :=
  ⟨rfl, rfl⟩

/-- Claim C3: for every environment and task, the lines appended to the
Progress Log (`downloads.txt`) on behalf of that task are exactly one line
holding the task's url when the task's result is a Success, and no lines at
all when the task's result is a Failure (whether the failure came from
validation, from the fetch, or from the log write itself). -/
theorem download_task_appends_url_iff_success (env : Env) (task : Task) :
    logAppends (download_task env task).snd =
      (match (download_task env task).fst with
       | Result.success _ _ => [task.url]
       | Result.failure _ _ => []) := by
  have h := logAppends_yt_downloader env task.url (task.target_dir.getD "./downloads")
    (task.audio_flag.getD true) (task.quality.getD "highest") task.title
  unfold download_task
  rcases hyd : yt_downloader env task.url (task.target_dir.getD "./downloads")
      (task.audio_flag.getD true) (task.quality.getD "highest") task.title with ⟨res, eff⟩
  rw [hyd] at h
  simp only at h
  cases res with
  | ok p =>
      cases hl : env.logWrite task.url with
      | ok u =>
          simp only [logAppends, List.filterMap_append] at h ⊢
          simp [h]
      | error e2 => simpa using h
  | error e => simpa using h

/-- Claim C10: if the fetch for a task succeeds but appending the url to the
Progress Log fails (e.g. disk full), the task's result is a Failure carrying
that task's url and the log-write error, and no line is appended to the
Progress Log for it. -/
theorem download_task_log_write_failure_reported_as_failure (env : Env) (task : Task)
    (p e : String)
    (hfetch : (yt_downloader env task.url (task.target_dir.getD "./downloads")
        (task.audio_flag.getD true) (task.quality.getD "highest") task.title).fst =
      Except.ok p)
    (hlog : env.logWrite task.url = Except.error e) :
    (download_task env task).fst = Result.failure task.url e ∧
    logAppends (download_task env task).snd = [] := by
  have h := logAppends_yt_downloader env task.url (task.target_dir.getD "./downloads")
    (task.audio_flag.getD true) (task.quality.getD "highest") task.title
  unfold download_task
  rcases hyd : yt_downloader env task.url (task.target_dir.getD "./downloads")
      (task.audio_flag.getD true) (task.quality.getD "highest") task.title with ⟨res, eff⟩
  rw [hyd] at h hfetch
  simp only at h hfetch
  subst hfetch
  simp only [hlog]
  exact ⟨trivial, h⟩

/-- Witness for C10: with `envLogFail` (successful fetch of two files, log
append failing with a disk-full error) and the well-formed task `taskA`, the
task's result is a Failure carrying the log error, and nothing is logged. -/
theorem download_task_log_write_failure_reported_as_failure_witness :
    (download_task envLogFail taskA).fst =
      Result.failure taskA.url "No space left on device" ∧
    logAppends (download_task envLogFail taskA).snd = [] :=
  download_task_log_write_failure_reported_as_failure envLogFail taskA
    "/d/b.mp3" "No space left on device" rfl rfl

/-- Claim C2: a task whose url is empty or whitespace-only fails validation
before any side effect — its result is the `"URL cannot be empty"` Failure and
its effect trace is empty (no directory creation, no fetch call) — and, for
any run that executes (positive worker cap, nonempty batch), every sibling
task is still dispatched: the result list has one entry per task, entry `i`
is the validation Failure, and every entry `j` is the result of dispatching
task `j` independently. -/
theorem run_rejects_whitespace_url_without_io (env : Env) (tasks : List Task)
    (k i : Nat) (task : Task)
    (hk : 1 ≤ k) (ht : tasks ≠ [])
    (hi : tasks[i]? = some task)
    (hw : task.url.toList.all Char.isWhitespace = true) :
    download_task env task = (Result.failure task.url "URL cannot be empty", []) ∧
    ∃ results, (run_download_tasks env tasks k).fst = Except.ok results ∧
      results.length = tasks.length ∧
      results[i]? = some (Result.failure task.url "URL cannot be empty") ∧
      ∀ j : Nat, results[j]? = (tasks[j]?).map fun t => (download_task env t).fst := by
  have hdt : download_task env task = (Result.failure task.url "URL cannot be empty", []) := by
    unfold download_task
    rw [yt_downloader_invalid_url env task.url (task.target_dir.getD "./downloads")
      (task.audio_flag.getD true) (task.quality.getD "highest") task.title hw]
  have hmw : min k tasks.length ≠ 0 := by
    have := List.length_pos.mpr ht
    omega
  refine ⟨hdt, tasks.map (fun t => (download_task env t).fst),
    run_download_tasks_eq_map env tasks k hmw, by simp, ?_, ?_⟩
  · rw [List.getElem?_map, hi]
    simp [hdt]
  · intro j
    rw [List.getElem?_map]

/-- Witness for C2: a batch of a whitespace-url task and a well-formed task,
run with cap 2: the invalid task is rejected with an empty trace, the run
returns two results, result 0 is the validation Failure, and both entries are
the independent dispatch results. -/
theorem run_rejects_whitespace_url_without_io_witness :
    download_task envOk taskWs = (Result.failure taskWs.url "URL cannot be empty", []) ∧
    ∃ results, (run_download_tasks envOk [taskWs, taskA] 2).fst = Except.ok results ∧
      results.length = ([taskWs, taskA] : List Task).length ∧
      results[0]? = some (Result.failure taskWs.url "URL cannot be empty") ∧
      ∀ j : Nat, results[j]? =
        (([taskWs, taskA] : List Task)[j]?).map fun t => (download_task envOk t).fst :=
  run_rejects_whitespace_url_without_io envOk [taskWs, taskA] 2 0 taskWs
    (by decide) (by decide) rfl rfl

/-- Claim C9: whenever `run` returns (positive effective concurrency), the
result list corresponds positionally to the input: it has the same length and
the `i`-th result carries the `i`-th input task's url, because `executor.map`
preserves input order. -/
theorem run_download_tasks_results_in_input_order (env : Env) (tasks : List Task)
    (k : Nat) (h : min k tasks.length ≠ 0) :
    ∃ results, (run_download_tasks env tasks k).fst = Except.ok results ∧
      results.length = tasks.length ∧
      ∀ i : Nat, (results[i]?).map Result.url = (tasks[i]?).map Task.url := by
  refine ⟨tasks.map (fun t => (download_task env t).fst),
    run_download_tasks_eq_map env tasks k h, by simp, ?_⟩
  intro i
  rw [List.getElem?_map]
  cases tasks[i]? with
  | none => rfl
  | some t => simp [download_task_fst_url]

/-- Witness for C9: a two-task batch with cap 10 returns two results whose
urls match the input tasks positionally. -/
theorem run_download_tasks_results_in_input_order_witness :
    ∃ results, (run_download_tasks envOk [taskWs, taskA] 10).fst = Except.ok results ∧
      results.length = ([taskWs, taskA] : List Task).length ∧
      ∀ i : Nat, (results[i]?).map Result.url =
        (([taskWs, taskA] : List Task)[i]?).map Task.url :=
  run_download_tasks_results_in_input_order envOk [taskWs, taskA] 10 (by decide)

/-- Claim C5: for a valid url, (1) if the fetch succeeds but all three output
resolution strategies yield zero candidates (no reported filepaths, empty
target-directory listing, and no reported nominal filename existing on disk),
the fetch fails with the download-produced-no-file error, whose message
contains the url; and (2) every provider-level error is wrapped into an error
whose message contains the offending url — never silently swallowed. -/
theorem yt_downloader_no_file_error_and_wraps_provider_errors (env : Env)
    (url target_dir : String) (af : Bool) (quality : String) (title : Option String)
    (info : InfoDict) (e : String)
    (hurl : url.toList.all Char.isWhitespace = false) :
    (env.fetch url (prepare_download_options target_dir af quality title) =
        Except.ok info →
      info.requested_downloads.filterMap id = [] →
      env.listing target_dir = [] →
      (∀ fn, info.filename = some fn →
        env.fileExists (target_dir ++ "/" ++ fn) = false) →
      (yt_downloader env url target_dir af quality title).fst =
        Except.error ("Error downloading " ++ url ++ ": No files were downloaded")) ∧
    (env.fetch url (prepare_download_options target_dir af quality title) =
        Except.error e →
      (yt_downloader env url target_dir af quality title).fst =
        Except.error ("Error downloading " ++ url ++ ": " ++ e) ∧
      ∃ pre post, ("Error downloading " ++ url ++ ": " ++ e) = pre ++ url ++ post) := by
  constructor
  · intro hfetch hfm hlist hfn
    cases hfname : info.filename with
    | none =>
        rw [yt_downloader_no_file_none env url target_dir af quality title info
          hurl hfetch hfm hlist hfname]
    | some fn =>
        rw [yt_downloader_no_file_missing env url target_dir af quality title info fn
          hurl hfetch hfm hlist hfname (hfn fn hfname)]
  · intro hfetch
    rw [yt_downloader_fetch_error env url target_dir af quality title e hurl hfetch]
    exact ⟨rfl, "Error downloading ", ": " ++ e, String.append_assoc _ ": " e⟩

/-- Witness for C5: part (1) applied to `envNoFiles` (fetch succeeds, zero
candidates everywhere) and part (2) applied to `envFail` (provider raises a
network error); in both cases the message carries the url. -/
theorem yt_downloader_no_file_error_and_wraps_provider_errors_witness :
    (yt_downloader envNoFiles "https://example.com/v1" "./downloads" true "highest"
        none).fst =
      Except.error
        "Error downloading https://example.com/v1: No files were downloaded" ∧
    (yt_downloader envFail "https://example.com/v1" "./downloads" true "highest"
        none).fst =
      Except.error "Error downloading https://example.com/v1: network error" ∧
    ∃ pre post,
      "Error downloading https://example.com/v1: network error" =
        pre ++ "https://example.com/v1" ++ post := by
  refine ⟨?_, ?_⟩
  · exact (yt_downloader_no_file_error_and_wraps_provider_errors envNoFiles
      "https://example.com/v1" "./downloads" true "highest" none
      { requested_downloads := [], filename := none } "unused" rfl).1
      rfl rfl rfl (fun fn h => Option.noConfusion h)
  · exact (yt_downloader_no_file_error_and_wraps_provider_errors envFail
      "https://example.com/v1" "./downloads" true "highest" none
      { requested_downloads := [], filename := none } "network error" rfl).2 rfl

/-- Claim C4: for a valid url and a successful fetch, the output path is
resolved by trying, in order: (1) the provider-reported filepaths, (2) the
directory listing of the target directory, (3) the provider-reported nominal
filename checked for existence — the first non-empty result wins.  When the
provider reports produced files, the directory listing is never consulted
(no listing effect appears in the trace); whichever candidate list wins, the
returned file is a candidate with maximal modification time. -/
theorem yt_downloader_output_resolution_order (env : Env) (url target_dir : String)
    (af : Bool) (quality : String) (title : Option String) (info : InfoDict)
    (fn : String)
    (hurl : url.toList.all Char.isWhitespace = false)
    (hfetch : env.fetch url (prepare_download_options target_dir af quality title) =
      Except.ok info) :
    (info.requested_downloads.filterMap id ≠ [] →
      Effect.listDir target_dir ∉ (yt_downloader env url target_dir af quality title).snd ∧
      ∃ r, (yt_downloader env url target_dir af quality title).fst = Except.ok r ∧
        r ∈ info.requested_downloads.filterMap id ∧
        ∀ x ∈ info.requested_downloads.filterMap id, env.mtime x ≤ env.mtime r) ∧
    (info.requested_downloads.filterMap id = [] → env.listing target_dir ≠ [] →
      Effect.listDir target_dir ∈ (yt_downloader env url target_dir af quality title).snd ∧
      ∃ r, (yt_downloader env url target_dir af quality title).fst = Except.ok r ∧
        r ∈ env.listing target_dir ∧
        ∀ x ∈ env.listing target_dir, env.mtime x ≤ env.mtime r) ∧
    (info.requested_downloads.filterMap id = [] → env.listing target_dir = [] →
      info.filename = some fn → env.fileExists (target_dir ++ "/" ++ fn) = true →
      (yt_downloader env url target_dir af quality title).fst =
        Except.ok (target_dir ++ "/" ++ fn)) := by
  refine ⟨?_, ?_, ?_⟩
  · intro hne
    rw [yt_downloader_produced_files env url target_dir af quality title info
      hurl hfetch hne]
    obtain ⟨hmem, hmax⟩ :=
      resolved_headD_mem_max env.mtime (info.requested_downloads.filterMap id) hne
    refine ⟨by simp, _, rfl, hmem, hmax⟩
  · intro hfm hlist
    rw [yt_downloader_listing_fallback env url target_dir af quality title info
      hurl hfetch hfm hlist]
    obtain ⟨hmem, hmax⟩ :=
      resolved_headD_mem_max env.mtime (env.listing target_dir) hlist
    refine ⟨by simp, _, rfl, hmem, hmax⟩
  · intro hfm hlist hfname hex
    rw [yt_downloader_filename_fallback env url target_dir af quality title info fn
      hurl hfetch hfm hlist hfname hex]

/-- Witness for C4: with `envOk` the provider reports two produced files of
which `/d/b.mp3` is the most recently modified; the adapter returns it and
never lists the directory. -/
theorem yt_downloader_output_resolution_order_witness :
    Effect.listDir "./downloads" ∉
      (yt_downloader envOk "https://example.com/v1" "./downloads" true "highest"
        none).snd ∧
    ∃ r, (yt_downloader envOk "https://example.com/v1" "./downloads" true "highest"
        none).fst = Except.ok r ∧
      r ∈ ["/d/a.mp3", "/d/b.mp3"] ∧
      ∀ x ∈ ["/d/a.mp3", "/d/b.mp3"], envOk.mtime x ≤ envOk.mtime r :=
  (yt_downloader_output_resolution_order envOk "https://example.com/v1" "./downloads"
    true "highest" none
    { requested_downloads := [some "/d/a.mp3", some "/d/b.mp3"], filename := none }
    "unused" rfl rfl).1 (by decide)

end YtDownloader
